import Mathlib

/-!
# Verification of the Ouedkniss crawler core

Shallow embedding of the URL classifier (`src/crawler/url_filter.py`), the
traversal engine and fetch layer (`src/crawler/crawler.py`) and the relevant
configuration (`src/config/settings.py`), together with theorems settling the
frozen claims about the crawl engine.

Machine model notes:
* Python strings are modelled as Lean `String`/`List Char`; the site's URLs are
  ASCII, and the digit class is modelled as ASCII digits.
* `urllib.parse.urlparse` is embedded as `urlparseE`, including the
  `ValueError` it raises on an authority component containing an unbalanced
  square bracket (its remaining error paths concern non-ASCII or bracketed
  hosts, outside the domains quantified over below); fallible operations
  return `Except Unit`. `urllib.parse.urljoin` is embedded with its full
  segment resolution, pinned to CPython's outputs by the sanity checks.
* The two regular expressions of `url_filter.py` are embedded as equivalent
  executable matchers (`productSuffixDigits` for `-d\d+$`,
  `categoryMatch` for `^/([a-z-]+)/(\d+)$`); both regexes are deterministic on
  their inputs (no backtracking alternative can change the outcome, since the
  character classes exclude the delimiters), so the matchers compute exactly
  the regex result.
-/

/-- View of `Except` as a sum, to derive decidable equality. -/
def exceptToSum : Except ε α → ε ⊕ α
  | .error e => .inl e
  | .ok a => .inr a

instance {ε α : Type} [DecidableEq ε] [DecidableEq α] : DecidableEq (Except ε α) := fun a b =>
  decidable_of_iff (exceptToSum a = exceptToSum b)
    (by cases a <;> cases b <;> simp [exceptToSum])

/-! ## URL classifier model (src/src/crawler/url_filter.py) -/

/-- `URLType` enum from `url_filter.py`. -/
inductive URLType
  | HOME
  | CATEGORY
  | SUBCATEGORY
  | PRODUCT
  | PAGINATION
  | INVALID
deriving DecidableEq, Repr, BEq

/-- The components of a parsed URL used by the classifier
(scheme, netloc and path of Python's `ParseResult`). -/
structure UrlParts where
  scheme : String
  netloc : String
  path : String
deriving DecidableEq, Repr

/-- Characters allowed in a URL scheme (Python's `scheme_chars`). -/
def isSchemeChar (c : Char) : Bool :=
  c.isAlpha || c.isDigit || c == '+' || c == '-' || c == '.'

/-- Split a character list at the first occurrence of `sep`
(Python's `url.find(sep)` followed by slicing). -/
def splitAtChar (sep : Char) : List Char → Option (List Char × List Char)
  | [] => none
  | c :: cs =>
    if c = sep then some ([], cs)
    else (splitAtChar sep cs).map (fun ab => (c :: ab.1, ab.2))

/-- Scheme-recognition guard of `urlsplit`: the part before `:` is nonempty,
starts with a letter, and consists of scheme characters. -/
def schemeOk : List Char → Bool
  | [] => false
  | c :: rest => c.isAlpha && (c :: rest).all isSchemeChar

/-- Split off the scheme of a URL, as `urlsplit` does: if the text before the
first `:` is a well-formed scheme, return it lowercased together with the
remainder, otherwise leave the URL untouched. -/
def splitScheme (cs : List Char) : List Char × List Char :=
  ((splitAtChar ':' cs).map (fun ab =>
    if schemeOk ab.1 then (ab.1.map Char.toLower, ab.2) else ([], cs))).getD ([], cs)

/-- A character that does not delimit the netloc (Python `_splitnetloc`
stops at the first of `/`, `?`, `#`). -/
def isNetlocChar (c : Char) : Bool := !(c == '/' || c == '?' || c == '#')

/-- A character that can appear in the path part (before query/fragment). -/
def isPathChar (c : Char) : Bool := !(c == '?' || c == '#')

/-- Drop the params component from a path, as `urlparse`'s `_splitparams`
does: everything from the first `;` of the last path segment on is removed. -/
def splitParams (cs : List Char) : List Char :=
  if cs.contains '/' then
    let seg := (cs.reverse.takeWhile (fun c => !(c == '/'))).reverse
    cs.take (cs.length - seg.length) ++ seg.takeWhile (fun c => !(c == ';'))
  else cs.takeWhile (fun c => !(c == ';'))

/-- Model of `urllib.parse.urlparse`, restricted to the components the
classifier reads (scheme, netloc, path). Returns `Except.error ()` where
CPython raises `ValueError "Invalid IPv6 URL"`: when the netloc contains one
of `[`, `]` without the other. CPython has two further `ValueError` paths
that this ASCII-oriented model does not represent — a non-ASCII netloc whose
NFKC normalization introduces one of the delimiters `/?#@:` (bpo-36742),
and, since 3.11, a bracketed host that is neither IPv6 nor IPvFuture — so
the no-throw theorem below restricts to bracket-free all-ASCII inputs,
on which the model's error behavior is exact. -/
def urlparseE (url : String) : Except Unit UrlParts :=
  let sr := splitScheme url.toList
  let scheme := sr.1
  let rest := sr.2
  if rest.take 2 = ['/', '/'] then
    let netloc := (rest.drop 2).takeWhile isNetlocChar
    let rest2 := (rest.drop 2).drop netloc.length
    if netloc.contains '[' != netloc.contains ']' then Except.error ()
    else Except.ok ⟨scheme.asString, netloc.asString,
      (splitParams (rest2.takeWhile isPathChar)).asString⟩
  else
    Except.ok ⟨scheme.asString, "", (splitParams (rest.takeWhile isPathChar)).asString⟩

/-- `URLFilter.base_url` default / `ScraperConfig.BASE_URL`. -/
def base_url : String := "https://www.ouedkniss.com"

/-- The hostnames accepted by `URLFilter.is_valid_domain`. -/
def valid_netlocs : List String := ["www.ouedkniss.com", "ouedkniss.com", ""]

/-- `URLFilter.is_valid_domain` (fallible because `urlparse` can raise). -/
def is_valid_domainE (url : String) : Except Unit Bool :=
  (urlparseE url).map (fun p => valid_netlocs.contains p.netloc)

/-- Matcher for `re.search(r'-d\d+$', path)`, which also yields the capture
of `re.search(r'-d(\d+)$', path)` used by `extract_product_id`: the maximal
trailing digit run, provided it is nonempty and directly preceded by `-d`. -/
def productSuffixDigits (path : List Char) : Option (List Char) :=
  let rev := path.reverse
  let ds := rev.takeWhile Char.isDigit
  if ds.isEmpty then none
  else if (rev.drop ds.length).take 2 = ['d', '-'] then some ds.reverse
  else none

/-- Characters of the slug class `[a-z-]`. -/
def isSlugChar (c : Char) : Bool := ('a' ≤ c && c ≤ 'z') || c == '-'

/-- Matcher for `category_pattern = re.compile(r'^/([a-z-]+)/(\d+)$')`:
returns the two capture groups on a match. -/
def categoryMatch (path : List Char) : Option (List Char × List Char) :=
  match path with
  | [] => none
  | c :: rest =>
    if c = '/' then
      let slug := rest.takeWhile isSlugChar
      match rest.drop slug.length with
      | [] => none
      | c2 :: num =>
        if c2 = '/' then
          if slug.isEmpty then none
          else if num.isEmpty then none
          else if num.all Char.isDigit then some (slug, num)
          else none
        else none
    else none

/-- The body of `URLFilter.classify_url` after the two `urlparse` calls
(domain check, home check, product suffix, category pattern). -/
def classifyParts (p : UrlParts) : URLType :=
  if !(valid_netlocs.contains p.netloc) then URLType.INVALID
  else
    let path := p.path.toList
    if path = [] ∨ path = ['/'] then URLType.HOME
    else if (productSuffixDigits path).isSome then URLType.PRODUCT
    else
      match categoryMatch path with
      | some (slug, _) =>
        if slug.contains '-' then URLType.SUBCATEGORY else URLType.CATEGORY
      | none => URLType.INVALID

/-- `URLFilter.classify_url`; the error case is the `ValueError` propagating
out of the `urlparse` call inside `is_valid_domain`. -/
def classify_urlE (url : String) : Except Unit URLType :=
  (urlparseE url).map classifyParts

/-- Python's `'sep'.join`-compatible split on a single character:
`splitOnChar '-' "a-b"` mirrors `'a-b'.split('-')`. -/
def splitOnChar (sep : Char) : List Char → List (List Char)
  | [] => [[]]
  | c :: cs =>
    let r := splitOnChar sep cs
    if c = sep then [] :: r
    else
      match r with
      | [] => [[c]]
      | h :: t => (c :: h) :: t

/-- `int(...)` on a digit string. -/
def digitsToNat (ds : List Char) : Nat := ds.foldl (fun a c => 10 * a + (c.toNat - 48)) 0

/-- `URLFilter.extract_category_info`. -/
def extract_category_infoE (url : String) : Except Unit (Option (List String × Nat)) :=
  (urlparseE url).map (fun p =>
    match categoryMatch p.path.toList with
    | none => none
    | some (slug, num) => some ((splitOnChar '-' slug).map List.asString, digitsToNat num))

/-- `URLFilter.extract_product_id`. -/
def extract_product_idE (url : String) : Except Unit (Option String) :=
  (urlparseE url).map (fun p => (productSuffixDigits p.path.toList).map List.asString)

/-! ## Configuration (src/src/config/settings.py) -/

def ScraperConfig.BASE_URL : String := "https://www.ouedkniss.com"
def ScraperConfig.MAX_RETRIES : Nat := 3
def ScraperConfig.CONCURRENT_REQUESTS : Nat := 5

/-! ## Joining and normalizing URLs

`urllib.parse.urljoin` (CPython 3.11) is embedded over the reference's
(path, params, query, fragment) split: references carrying a scheme are
returned as given, protocol-relative references (`//host/...`) take the
base's scheme, and all other references go through `urljoin`'s segment
resolution — `..` pops, `.` is skipped, a trailing `.`/`..` re-appends the
empty segment, empty middle segments of a merged relative path are filtered
— followed by `urlunparse`/`urlunsplit` reassembly. The base's own params,
query and fragment (which `urljoin` substitutes into references with an
empty path) are not carried by `UrlParts`; they are empty for the site base
and for every URL the crawler builds, where the model is exact. -/

/-- Split a scheme-less, netloc-less reference into
(path, params, query, fragment), as `urlparse` does: fragment after the
first `#`, query after the first `?` of what precedes it, params after the
first `;` of the last path segment. -/
def refSplit (cs : List Char) : List Char × List Char × List Char × List Char :=
  let fsp := (splitAtChar '#' cs).getD (cs, [])
  let qsp := (splitAtChar '?' fsp.1).getD (fsp.1, [])
  let path := splitParams qsp.1
  (path, qsp.1.drop (path.length + 1), qsp.2, fsp.2)

/-- `urljoin`'s segment resolution loop: a stack that `..` pops (ignoring
underflow) and `.` skips. -/
def resolveDotSegs (segs : List (List Char)) : List (List Char) :=
  segs.foldl (fun acc seg =>
    if seg = ['.', '.'] then acc.dropLast
    else if seg = ['.'] then acc
    else acc ++ [seg]) []

/-- `segments[1:-1] = filter(None, segments[1:-1])` on the tail of a
segment list: drop empty segments except the final one. -/
def middleKeepLast : List (List Char) → List (List Char)
  | [] => []
  | [a] => [a]
  | a :: b :: t =>
    if a = [] then middleKeepLast (b :: t) else a :: middleKeepLast (b :: t)

/-- Keep the first and last segments, dropping empty ones in between. -/
def middleFilter : List (List Char) → List (List Char)
  | [] => []
  | a :: rest => a :: middleKeepLast rest

/-- `'/'.join` on segments. -/
def joinSlash : List (List Char) → List Char
  | [] => []
  | [a] => a
  | a :: b :: t => a ++ '/' :: joinSlash (b :: t)

/-- `urllib.parse.urlunsplit` for a scheme/netloc pair and an assembled
path(+params) plus the reference's query and fragment. -/
def urlunsplitModel (scheme netloc : String) (pathUrl query fragment : List Char) :
    String :=
  let u1 :=
    if ¬(netloc = "") ∨ pathUrl.take 2 = ['/', '/'] then
      ('/' :: '/' :: netloc.toList)
        ++ (if ¬(pathUrl = []) ∧ pathUrl.take 1 ≠ ['/'] then '/' :: pathUrl else pathUrl)
    else pathUrl
  let u2 := if scheme = "" then u1 else scheme.toList ++ ':' :: u1
  let u3 := if query = [] then u2 else u2 ++ '?' :: query
  let u4 := if fragment = [] then u3 else u3 ++ '#' :: fragment
  u4.asString

/-- The path-merging core of `urljoin`: build the segment list (ignoring the
base path when the reference is path-absolute, else merging onto the base
path with its last segment dropped and empty middle segments filtered),
resolve dot segments, restore a trailing slash after a final `.`/`..`, and
rejoin (`'/'.join(...) or '/'`). -/
def urljoinResolvePath (bpath path : List Char) : List Char :=
  let base_parts0 := splitOnChar '/' bpath
  let base_parts :=
    if base_parts0.getLast? ≠ some [] then base_parts0.dropLast else base_parts0
  let segments :=
    if path.take 1 = ['/'] then splitOnChar '/' path
    else middleFilter (base_parts ++ splitOnChar '/' path)
  let resolved0 := resolveDotSegs segments
  let resolved :=
    if segments.getLast? = some ['.'] ∨ segments.getLast? = some ['.', '.']
    then resolved0 ++ [[]] else resolved0
  let joined0 := joinSlash resolved
  if joined0 = [] then ['/'] else joined0

/-- Model of `urllib.parse.urljoin` (see section comment above). -/
def urljoinModel (base rel : String) : String :=
  if rel = "" then base
  else if (splitScheme rel.toList).1 ≠ [] then rel
  else
    match urlparseE base with
    | Except.error _ => rel
    | Except.ok bp =>
      if rel.toList.take 2 = ['/', '/'] then bp.scheme ++ ":" ++ rel
      else
        let rp := refSplit rel.toList
        if rp.1 = [] ∧ rp.2.1 = [] then
          urlunsplitModel bp.scheme bp.netloc bp.path.toList rp.2.2.1 rp.2.2.2
        else
          let joined := urljoinResolvePath bp.path.toList rp.1
          let withParams := if rp.2.1 = [] then joined else joined ++ ';' :: rp.2.1
          urlunsplitModel bp.scheme bp.netloc withParams rp.2.2.1 rp.2.2.2

/-- `URLFilter.normalize_url`. -/
def normalize_url (url : String) : String :=
  if url.toList.take 1 = ['/'] then urljoinModel base_url url else url

/-- Total variant of the classifier used inside the traversal model. On
inputs where `urlparse` raises, the Python traversal would propagate the
exception; the traversal theorems below only involve URLs on which `urlparse`
succeeds, where this variant agrees with `classify_urlE`. -/
def classify_urlT (url : String) : URLType :=
  match classify_urlE url with
  | Except.ok t => t
  | Except.error _ => URLType.INVALID

/-- `URLFilter.should_crawl`. -/
def should_crawl (url : String) : Bool :=
  [URLType.HOME, URLType.CATEGORY, URLType.SUBCATEGORY, URLType.PRODUCT].contains
    (classify_urlT url)

/-! ## Traversal engine model (src/src/crawler/crawler.py)

The crawler instance's shared mutable state (`visited_urls`, `product_urls`)
is threaded explicitly, extended with the fetch log: the sequence of URLs
passed to `fetch_page`, which the fetched-at-most-once claims are about.
The network is abstracted by an oracle `Web` mapping each URL either to
`none` — a failed fetch, or a falsy (empty) HTML body — or to the list of
`href` attribute values found in the returned HTML (what BeautifulSoup's
`find_all('a', href=True)` produces, in document order).

`asyncio` runs coroutines cooperatively on one event loop; the
membership-check-then-insert on `visited_urls` at the top of `crawl_page` has
no suspension point inside it, so it is atomic. `asyncio.gather` in
`crawl_all_categories` is modelled by running the category traversals in
sequence, one admissible cooperative schedule; the concrete executions below
use at most one gathered task, where this schedule is the only one. -/

/-- The network oracle: URL to fetch outcome (`none` = failure/falsy body,
`some hrefs` = page content abstracted by its anchor hrefs). -/
def Web : Type := String → Option (List String)

/-- The crawler's shared state, plus the log of URLs passed to `fetch_page`. -/
structure CrawlState where
  visited : List String
  product_urls : List String
  fetchLog : List String
deriving DecidableEq, Repr

/-- One call of `OuedknissCrawler.fetch_page` as the traversal sees it:
returns the (abstracted) content and records the URL in the fetch log. -/
def fetch_pageSim (web : Web) (url : String) (s : CrawlState) :
    Option (List String) × CrawlState :=
  (web url, { s with fetchLog := s.fetchLog ++ [url] })

/-- `OuedknissCrawler.extract_links`: resolve each href against the page URL,
normalize, and keep those that `should_crawl`. -/
def extract_links (hrefs : List String) (pageUrl : String) : List String :=
  (hrefs.map (fun h => normalize_url (urljoinModel pageUrl h))).filter should_crawl

/-- `OuedknissCrawler.crawl_page`. -/
def crawl_page (web : Web) (url : String) (s : CrawlState) :
    List String × CrawlState :=
  if s.visited.contains url then ([], s)
  else
    let s1 := { s with visited := url :: s.visited }
    let fr := fetch_pageSim web url s1
    let s2 := fr.2
    match fr.1 with
    | none => ([], s2)
    | some hrefs =>
      if classify_urlT url = URLType.PRODUCT then
        ([], { s2 with product_urls := url :: s2.product_urls })
      else
        let links := extract_links hrefs url
        (links.filter (fun l => !s2.visited.contains l), s2)

/-- The page-`n` URL of a category path, as `crawl_category` builds it:
`f"{BASE_URL}/{base_category}/{page}"`. -/
def nextPageUrl (baseCategory : String) (page : Nat) : String :=
  ScraperConfig.BASE_URL ++ "/" ++ baseCategory ++ "/" ++ toString page

/-- The `while urls_to_visit and (max_pages is None or page <= max_pages)`
loop of `crawl_category`, with explicit fuel (the Python loop can run
unboundedly; every concrete execution below fits in its fuel). -/
def crawl_categoryLoop (web : Web) (baseCategory : String) (maxPages : Option Nat) :
    Nat → Nat → List String → CrawlState → CrawlState
  | 0, _, _, s => s
  | fuel + 1, page, queue, s =>
    match queue with
    | [] => s
    | current :: rest =>
      if (match maxPages with | none => true | some m => page ≤ m) then
        let pr := crawl_page web current s
        let s1 := pr.2
        let queue1 := rest ++ pr.1.filter (fun u => !s1.visited.contains u)
        let page1 := page + 1
        let next := nextPageUrl baseCategory page1
        let queue2 :=
          if !s1.visited.contains next && decide (page1 > 1) &&
              decide (s1.product_urls.length > 0)
          then queue1 ++ [next] else queue1
        crawl_categoryLoop web baseCategory maxPages fuel page1 queue2 s1
      else s

/-- `OuedknissCrawler.crawl_category`. An invalid starting URL returns a
fresh empty set; otherwise the final (global) `product_urls` is returned.
The model's error branch corresponds to `urlparse` raising inside
`extract_category_info`; no traversal theorem exercises it. -/
def crawl_category (web : Web) (categoryUrl : String) (maxPages : Option Nat)
    (fuel : Nat) (s : CrawlState) : List String × CrawlState :=
  match extract_category_infoE categoryUrl with
  | Except.error _ => ([], s)
  | Except.ok none => ([], s)
  | Except.ok (some (categories, _)) =>
    let baseCategory := String.intercalate "/" categories
    let s1 := crawl_categoryLoop web baseCategory maxPages fuel 1
      [nextPageUrl baseCategory 1] s
    (s1.product_urls, s1)

/-- `OuedknissCrawler.crawl_all_categories`: fetch the home page, keep the
links classified Category/Subcategory, and crawl the first 3 of them
(the hardcoded `[:3]` cap), returning the global product set. -/
def crawl_all_categories (web : Web) (fuel : Nat) (s : CrawlState) :
    List String × CrawlState :=
  let fr := fetch_pageSim web ScraperConfig.BASE_URL s
  let s1 := fr.2
  match fr.1 with
  | none => ([], s1)
  | some hrefs =>
    let categoryLinks := extract_links hrefs ScraperConfig.BASE_URL
    let categoryUrls := categoryLinks.filter (fun l =>
      classify_urlT l = URLType.CATEGORY || classify_urlT l = URLType.SUBCATEGORY)
    let s2 := (categoryUrls.take 3).foldl
      (fun st c => (crawl_category web c none fuel st).2) s1
    (s2.product_urls, s2)

/-- Visited-set invariant: the fetch log is duplicate-free, and every logged
URL has been marked visited. `crawl_page` preserves it because its
membership check and insertion happen atomically before the fetch. -/
def FetchOnceInv (s : CrawlState) : Prop :=
  s.fetchLog.Nodup ∧ ∀ u ∈ s.fetchLog, u ∈ s.visited

/-- Network used by the C2 counterexample: the home page links to one
category, whose first page links back to the home URL. -/
def webC2 : Web := fun u =>
  if u = "https://www.ouedkniss.com" then some ["/informatique/1"]
  else if u = "https://www.ouedkniss.com/informatique/1" then
    some ["https://www.ouedkniss.com"]
  else none

/-- Network used by the C3 counterexample: the category's first page has no
product links, only an ordinary pagination link to page 2. -/
def webC3 : Web := fun u =>
  if u = "https://www.ouedkniss.com/informatique/1" then some ["/informatique/2"]
  else if u = "https://www.ouedkniss.com/informatique/2" then some []
  else none

/-- Network used by the C4 counterexample: every fetch fails. -/
def webHomeDown : Web := fun _ => none

/-- Network used by the C4 counterexample: the home page fetch succeeds but
contains no links. -/
def webHomeEmpty : Web := fun u =>
  if u = "https://www.ouedkniss.com" then some [] else none

/-! ## Fetch layer retry model (OuedknissCrawler.fetch_page)

The retry loop of `fetch_page` is modelled over an attempt oracle giving the
outcome of each HTTP attempt, recording the observable events: the pacing
sleep before each attempt, the attempt itself, and the exponential-backoff
sleeps (in whole time units, `2 ** attempt` seconds). The semaphore around
the loop does not affect the attempt/backoff structure of a single call. -/

/-- Outcome of one `self.session.get` attempt. -/
inductive AttemptResult
  | response (status : Nat) (body : String)
  | timeout
  | transportError
deriving DecidableEq, Repr

/-- Disposition of one attempt, per the status checks in `fetch_page`:
`some (some body)` — status 200, return the content; `some none` — status
404, terminal failure; `none` — any other status, a timeout, or a transport
error: retryable. -/
def attemptOutcome : AttemptResult → Option (Option String)
  | .response 200 body => some (some body)
  | .response 404 _ => some none
  | .response _ _ => none
  | .timeout => none
  | .transportError => none

/-- A retryable attempt outcome. -/
def retryable (a : AttemptResult) : Bool := (attemptOutcome a).isNone

/-- Observable events of one `fetch_page` call. -/
inductive FetchEv
  | pacingSleep
  | request (attempt : Nat)
  | backoffSleep (units : Nat)
deriving DecidableEq, Repr

/-- The `for attempt in range(MAX_RETRIES)` loop of `fetch_page`, iterating
over the remaining attempt indices; `return` inside the loop body cuts the
iteration short, falling off the end yields `None`. -/
def fetchAttemptLoop (resp : Nat → AttemptResult) (maxRetries : Nat) :
    List Nat → Option String × List FetchEv
  | [] => (none, [])
  | i :: rest =>
    let pre := [FetchEv.pacingSleep, FetchEv.request i]
    match attemptOutcome (resp i) with
    | some r => (r, pre)
    | none =>
      let bo := if i < maxRetries - 1 then [FetchEv.backoffSleep (2 ^ i)] else []
      let r2 := fetchAttemptLoop resp maxRetries rest
      (r2.1, pre ++ bo ++ r2.2)

/-- `OuedknissCrawler.fetch_page`: result and event trace of one call. -/
def fetch_page (resp : Nat → AttemptResult) (maxRetries : Nat) :
    Option String × List FetchEv :=
  fetchAttemptLoop resp maxRetries (List.range maxRetries)

/-- Number of HTTP attempts in an event trace. -/
def countRequests (evs : List FetchEv) : Nat :=
  (evs.filter (fun e => match e with | .request _ => true | _ => false)).length

/-- Backoff sleeps of an event trace, in order. -/
def backoffs (evs : List FetchEv) : List Nat :=
  evs.filterMap (fun e => match e with | .backoffSleep u => some u | _ => none)

/-! ## Model sanity checks

Concrete evaluations pinning the embedding to the behavior of the Python
code (checked against CPython's `urlparse`/`urljoin` and the regexes). -/

example : urlparseE "https://www.ouedkniss.com/informatique-3"
    = Except.ok ⟨"https", "www.ouedkniss.com", "/informatique-3"⟩ := by decide

example : classify_urlE "https://www.ouedkniss.com/informatique-3"
    = Except.ok URLType.INVALID := by decide

example : classify_urlE "https://www.ouedkniss.com/informatique/3"
    = Except.ok URLType.CATEGORY := by decide

example : extract_category_infoE "https://www.ouedkniss.com/informatique/3"
    = Except.ok (some (["informatique"], 3)) := by decide

example : classify_urlE "https://www.ouedkniss.com/ordinateur-portable-hp-d12345678"
    = Except.ok URLType.PRODUCT := by decide

example : extract_product_idE "https://www.ouedkniss.com/ordinateur-portable-hp-d12345678"
    = Except.ok (some "12345678") := by decide

example : classify_urlE "https://[" = Except.error () := by decide

example : classify_urlE "https://www.ouedkniss.com/informatique-pc-portable/2"
    = Except.ok URLType.SUBCATEGORY := by decide

example :
    extract_links ["/informatique/1", "https://evil.com/informatique/1", "nope"]
      "https://www.ouedkniss.com"
    = ["https://www.ouedkniss.com/informatique/1"] := by decide

example :
    crawl_page (fun _ => some []) "https://www.ouedkniss.com/informatique/1"
      ⟨[], [], []⟩
    = ([], ⟨["https://www.ouedkniss.com/informatique/1"], [],
        ["https://www.ouedkniss.com/informatique/1"]⟩) := by decide

example : urljoinModel "https://www.ouedkniss.com" "/a/../b"
    = "https://www.ouedkniss.com/b" := by decide

example : urljoinModel "https://www.ouedkniss.com" "/a//b"
    = "https://www.ouedkniss.com/a//b" := by decide

example : urljoinModel "https://www.ouedkniss.com" "/a/./b"
    = "https://www.ouedkniss.com/a/b" := by decide

example : urljoinModel "https://www.ouedkniss.com" "/a/."
    = "https://www.ouedkniss.com/a/" := by decide

example : urljoinModel "https://www.ouedkniss.com" "/.."
    = "https://www.ouedkniss.com/" := by decide

example : urljoinModel "https://www.ouedkniss.com" "/../../a"
    = "https://www.ouedkniss.com/a" := by decide

example : urljoinModel "https://www.ouedkniss.com" "/a;p"
    = "https://www.ouedkniss.com/a;p" := by decide

example : urljoinModel "https://www.ouedkniss.com" "/a?x"
    = "https://www.ouedkniss.com/a?x" := by decide

example : urljoinModel "https://www.ouedkniss.com/x/y" "z"
    = "https://www.ouedkniss.com/x/z" := by decide

example : urljoinModel "https://www.ouedkniss.com/x/y" "a//b/../c"
    = "https://www.ouedkniss.com/x/a/c" := by decide

example : urljoinModel "https://www.ouedkniss.com/x/y/" "../z"
    = "https://www.ouedkniss.com/x/z" := by decide

example : urljoinModel "https://www.ouedkniss.com/x/y" ".."
    = "https://www.ouedkniss.com/" := by decide

example : urljoinModel "https://www.ouedkniss.com" "foo"
    = "https://www.ouedkniss.com/foo" := by decide

example : normalize_url "/a/../b" = "https://www.ouedkniss.com/b" := by decide

example :
    fetch_page (fun i => if i = 2 then .response 200 "ok" else .timeout) 3
    = (some "ok",
       [.pacingSleep, .request 0, .backoffSleep 1,
        .pacingSleep, .request 1, .backoffSleep 2,
        .pacingSleep, .request 2]) := by decide

example :
    fetch_page (fun _ => .response 404 "nf") 3
    = (none, [.pacingSleep, .request 0]) := by decide

theorem attemptOutcome_200 (b : String) :
    attemptOutcome (AttemptResult.response 200 b) = some (some b) := rfl

theorem attemptOutcome_404 (b : String) :
    attemptOutcome (AttemptResult.response 404 b) = some none := rfl

/-! ## List helper lemmas -/

theorem takeWhile_all_append (p : Char → Bool) (l : List Char) (c : Char) (r : List Char)
    (hl : ∀ x ∈ l, p x = true) (hc : p c = false) :
    (l ++ c :: r).takeWhile p = l := by
  induction l with
  | nil => simp [List.takeWhile_cons, hc]
  | cons a as ih =>
    have ha : p a = true := hl a (by simp)
    simp only [List.cons_append, List.takeWhile_cons, ha, if_true]
    rw [ih (fun x hx => hl x (by simp [hx]))]

theorem drop_length_append (l r : List Char) : (l ++ r).drop l.length = r := by
  induction l with
  | nil => simp
  | cons a as ih => simp

/-! ## Claim C1 -/

/-- C1: the claim states that for `https://www.ouedkniss.com/informatique-3`,
`extract_category_info` returns `(["informatique"], 3)` and `classify_url`
returns Category. It is false: `category_pattern` requires a slash between
slug and page number (`^/([a-z-]+)/(\d+)$`), so the dash form does not match —
`extract_category_info` returns `None` and `classify_url` returns Invalid. -/
theorem c1_counterexample :
    extract_category_infoE "https://www.ouedkniss.com/informatique-3"
      ≠ Except.ok (some (["informatique"], 3)) ∧
    classify_urlE "https://www.ouedkniss.com/informatique-3"
      ≠ Except.ok URLType.CATEGORY ∧
    extract_category_infoE "https://www.ouedkniss.com/informatique-3"
      = Except.ok none ∧
    classify_urlE "https://www.ouedkniss.com/informatique-3"
      = Except.ok URLType.INVALID := by
  decide

/-- C1 (amended): for the slash form `https://www.ouedkniss.com/informatique/3`
— the shape `category_pattern` actually accepts and `crawl_category`
generates — `extract_category_info` returns `(["informatique"], 3)` and
`classify_url` returns Category. -/
theorem c1_amended_slash_form :
    extract_category_infoE "https://www.ouedkniss.com/informatique/3"
      = Except.ok (some (["informatique"], 3)) ∧
    classify_urlE "https://www.ouedkniss.com/informatique/3"
      = Except.ok URLType.CATEGORY := by
  decide

/-! ## Claim C10 -/

/-- C10: calling `crawl_page` on a URL already in the visited set returns the
empty list and leaves the state — visited set, product-URL set, and fetch log
(hence no fetch is issued) — unchanged. -/
theorem c10_visited_noop (web : Web) (url : String) (s : CrawlState)
    (h : s.visited.contains url = true) :
    crawl_page web url s = ([], s) := by
  have hmem : url ∈ s.visited := by simpa using h
  simp [crawl_page, hmem]

theorem c10_visited_noop_witness :
    crawl_page (fun _ => some []) "https://www.ouedkniss.com/informatique/1"
      ⟨["https://www.ouedkniss.com/informatique/1"], [], []⟩
    = ([], ⟨["https://www.ouedkniss.com/informatique/1"], [], []⟩) :=
  c10_visited_noop _ _ _ (by decide)

/-! ## Claim C5 -/

theorem countRequests_append (a b : List FetchEv) :
    countRequests (a ++ b) = countRequests a + countRequests b := by
  simp [countRequests, List.filter_append]

theorem countRequests_fetchAttemptLoop_le (resp : Nat → AttemptResult) (m : Nat)
    (l : List Nat) :
    countRequests (fetchAttemptLoop resp m l).2 ≤ l.length := by
  induction l with
  | nil => simp [fetchAttemptLoop, countRequests]
  | cons i rest ih =>
    simp only [fetchAttemptLoop]
    cases h : attemptOutcome (resp i) with
    | some r => simp [countRequests, List.length_cons]
    | none =>
      simp only [countRequests_append, List.length_cons]
      have hbo : countRequests (if i < m - 1 then [FetchEv.backoffSleep (2 ^ i)] else [])
          = 0 := by
        split <;> simp [countRequests]
      have hpre : countRequests [FetchEv.pacingSleep, FetchEv.request i] = 1 := by
        simp [countRequests]
      omega

/-- C5: with the configured default of 3 attempts, `fetch_page` makes at most
3 attempts for any sequence of attempt outcomes; a 404 response on the first
attempt returns failure immediately, with a single attempt and no backoff;
and a retryable cause on attempts 1 and 2 followed by a 200 on attempt 3
produces backoff sleeps of `2^0 = 1` then `2^1 = 2` time units between the
attempts (and only there) and returns the page content. -/
theorem c5_fetch_retry_policy (resp : Nat → AttemptResult) (b c : String) :
    countRequests (fetch_page resp ScraperConfig.MAX_RETRIES).2
      ≤ ScraperConfig.MAX_RETRIES ∧
    (resp 0 = AttemptResult.response 404 b →
      fetch_page resp ScraperConfig.MAX_RETRIES
        = (none, [FetchEv.pacingSleep, FetchEv.request 0])) ∧
    (retryable (resp 0) = true → retryable (resp 1) = true →
      resp 2 = AttemptResult.response 200 c →
      fetch_page resp ScraperConfig.MAX_RETRIES
        = (some c,
           [FetchEv.pacingSleep, FetchEv.request 0, FetchEv.backoffSleep 1,
            FetchEv.pacingSleep, FetchEv.request 1, FetchEv.backoffSleep 2,
            FetchEv.pacingSleep, FetchEv.request 2])) := by
  have hrange : List.range ScraperConfig.MAX_RETRIES = [0, 1, 2] := by decide
  refine ⟨?_, ?_, ?_⟩
  · have h := countRequests_fetchAttemptLoop_le resp ScraperConfig.MAX_RETRIES
      (List.range ScraperConfig.MAX_RETRIES)
    simpa [fetch_page, ScraperConfig.MAX_RETRIES] using h
  · intro h0
    simp [fetch_page, hrange, fetchAttemptLoop, h0, attemptOutcome]
  · intro h0 h1 h2
    rw [retryable, Option.isNone_iff_eq_none] at h0 h1
    simp [fetch_page, hrange, fetchAttemptLoop, h0, h1, h2, attemptOutcome_200,
      ScraperConfig.MAX_RETRIES]

theorem c5_fetch_retry_policy_witness :
    fetch_page (fun i => if i = 2 then AttemptResult.response 200 "page" else
      AttemptResult.timeout) ScraperConfig.MAX_RETRIES
    = (some "page",
       [FetchEv.pacingSleep, FetchEv.request 0, FetchEv.backoffSleep 1,
        FetchEv.pacingSleep, FetchEv.request 1, FetchEv.backoffSleep 2,
        FetchEv.pacingSleep, FetchEv.request 2]) :=
  (c5_fetch_retry_policy (fun i => if i = 2 then AttemptResult.response 200 "page" else
      AttemptResult.timeout) "" "page").2.2 (by decide) (by decide) (by decide)

/-! ## Claims C6 and C7 -/

theorem except_map_ok (f : α → β) (a : α) :
    Except.map f (Except.ok a : Except Unit α) = Except.ok (f a) := rfl

theorem productSuffixDigits_of_suffix (pre ds : List Char) (hne : ds ≠ [])
    (hds : ∀ c ∈ ds, c.isDigit = true) :
    productSuffixDigits (pre ++ '-' :: 'd' :: ds) = some ds := by
  have hrev : (pre ++ '-' :: 'd' :: ds).reverse
      = ds.reverse ++ 'd' :: '-' :: pre.reverse := by simp
  have htake : (ds.reverse ++ 'd' :: '-' :: pre.reverse).takeWhile Char.isDigit
      = ds.reverse :=
    takeWhile_all_append _ _ _ _ (fun x hx => hds x (List.mem_reverse.mp hx)) (by decide)
  have hdrop : (ds.reverse ++ 'd' :: '-' :: pre.reverse).drop ds.reverse.length
      = 'd' :: '-' :: pre.reverse := drop_length_append _ _
  have hemp : ds.reverse.isEmpty = false := by
    simp [List.isEmpty_iff, hne]
  simp only [productSuffixDigits, hrev, htake, hdrop, hemp]
  simp

/-- C6: a same-site URL whose path ends in a dash, the letter `d`, and one or
more digits classifies as Product — the product suffix is tested before the
category pattern, so product detection has priority — and
`extract_product_id` returns the digit string. -/
theorem c6_product_priority (url : String) (p : UrlParts) (pre ds : List Char)
    (hparse : urlparseE url = Except.ok p)
    (hdom : valid_netlocs.contains p.netloc = true)
    (hpath : p.path.toList = pre ++ '-' :: 'd' :: ds)
    (hne : ds ≠ [])
    (hds : ∀ c ∈ ds, c.isDigit = true) :
    classify_urlE url = Except.ok URLType.PRODUCT ∧
    extract_product_idE url = Except.ok (some ds.asString) := by
  have hprod : productSuffixDigits p.path.toList = some ds := by
    rw [hpath]; exact productSuffixDigits_of_suffix pre ds hne hds
  have hhome : ¬(p.path.toList = [] ∨ p.path.toList = ['/']) := by
    rw [hpath]
    rintro (h | h)
    all_goals
      have hlen := congrArg List.length h
      simp only [List.length_append, List.length_cons, List.length_nil] at hlen
      omega
  have hcp : classifyParts p = URLType.PRODUCT := by
    rw [classifyParts, hdom]
    simp only [Bool.not_true, Bool.false_eq_true, if_false]
    rw [if_neg hhome, hprod]
    simp
  constructor
  · rw [classify_urlE, hparse, except_map_ok, hcp]
  · rw [extract_product_idE, hparse, except_map_ok]
    show Except.ok ((productSuffixDigits p.path.toList).map List.asString)
      = Except.ok (some ds.asString)
    rw [hprod]
    exact rfl

theorem c6_product_priority_witness :
    classify_urlE "https://www.ouedkniss.com/ordinateur-portable-hp-d12345678"
      = Except.ok URLType.PRODUCT ∧
    extract_product_idE "https://www.ouedkniss.com/ordinateur-portable-hp-d12345678"
      = Except.ok (some "12345678") :=
  c6_product_priority "https://www.ouedkniss.com/ordinateur-portable-hp-d12345678"
    ⟨"https", "www.ouedkniss.com", "/ordinateur-portable-hp-d12345678"⟩
    "/ordinateur-portable-hp".toList "12345678".toList
    (by decide) (by decide) (by decide) (by decide) (by decide)

theorem categoryMatch_of_shape (slug num : List Char) (hs : slug ≠ [])
    (hslug : ∀ c ∈ slug, isSlugChar c = true) (hn : num ≠ [])
    (hnum : ∀ c ∈ num, c.isDigit = true) :
    categoryMatch ('/' :: (slug ++ '/' :: num)) = some (slug, num) := by
  have htake : (slug ++ '/' :: num).takeWhile isSlugChar = slug :=
    takeWhile_all_append _ _ _ _ hslug (by decide)
  have hdrop : (slug ++ '/' :: num).drop slug.length = '/' :: num :=
    drop_length_append _ _
  simp only [categoryMatch, htake, hdrop]
  simp [List.isEmpty_iff, hs, hn, List.all_eq_true]
  exact hnum

/-- C7: a same-site URL whose path is exactly two segments — a nonempty slug
of lowercase letters and dashes, then a nonempty digit string — and that does
not match the product suffix classifies as Category when the slug has no
dash and as Subcategory when it has one or more dashes. -/
theorem c7_category_shape (url : String) (p : UrlParts) (slug num : List Char)
    (hparse : urlparseE url = Except.ok p)
    (hdom : valid_netlocs.contains p.netloc = true)
    (hpath : p.path.toList = '/' :: (slug ++ '/' :: num))
    (hs : slug ≠ []) (hslug : ∀ c ∈ slug, isSlugChar c = true)
    (hn : num ≠ []) (hnum : ∀ c ∈ num, c.isDigit = true)
    (hnoprod : productSuffixDigits p.path.toList = none) :
    classify_urlE url
      = Except.ok (if slug.contains '-' then URLType.SUBCATEGORY
                   else URLType.CATEGORY) := by
  have hcat : categoryMatch p.path.toList = some (slug, num) := by
    rw [hpath]; exact categoryMatch_of_shape slug num hs hslug hn hnum
  have hhome : ¬(p.path.toList = [] ∨ p.path.toList = ['/']) := by
    rw [hpath]
    rintro (h | h)
    all_goals
      have hlen := congrArg List.length h
      simp only [List.length_append, List.length_cons, List.length_nil] at hlen
      omega
  have hcp : classifyParts p
      = (if slug.contains '-' then URLType.SUBCATEGORY else URLType.CATEGORY) := by
    rw [classifyParts, hdom]
    simp only [Bool.not_true, Bool.false_eq_true, if_false]
    rw [if_neg hhome, hnoprod]
    simp only [Option.isSome_none, Bool.false_eq_true, if_false, hcat]
  rw [classify_urlE, hparse, except_map_ok, hcp]

theorem c7_category_shape_witness :
    classify_urlE "https://www.ouedkniss.com/informatique-pc-portable/2"
      = Except.ok URLType.SUBCATEGORY ∧
    classify_urlE "https://www.ouedkniss.com/informatique/3"
      = Except.ok URLType.CATEGORY := by
  constructor
  · have h := c7_category_shape "https://www.ouedkniss.com/informatique-pc-portable/2"
      ⟨"https", "www.ouedkniss.com", "/informatique-pc-portable/2"⟩
      "informatique-pc-portable".toList "2".toList
      (by decide) (by decide) (by decide) (by decide) (by decide) (by decide)
      (by decide) (by decide)
    simpa using h
  · have h := c7_category_shape "https://www.ouedkniss.com/informatique/3"
      ⟨"https", "www.ouedkniss.com", "/informatique/3"⟩
      "informatique".toList "3".toList
      (by decide) (by decide) (by decide) (by decide) (by decide) (by decide)
      (by decide) (by decide)
    simpa using h

/-! ## Claim C2 -/

theorem fetchOnceInv_extend (visited pu log : List String) (url : String)
    (h : FetchOnceInv ⟨visited, pu, log⟩) (hv : url ∉ visited) :
    ∀ pu2, FetchOnceInv ⟨url :: visited, pu2, log ++ [url]⟩ := by
  intro pu2
  obtain ⟨hnd, hsub⟩ := h
  constructor
  · rw [List.nodup_append]
    refine ⟨hnd, List.nodup_singleton url, ?_⟩
    intro a ha hb
    rw [List.mem_singleton] at hb
    subst hb
    exact hv (hsub a ha)
  · intro u hu
    rcases List.mem_append.mp hu with h1 | h1
    · exact List.mem_cons_of_mem _ (hsub u h1)
    · rw [List.mem_singleton] at h1
      subst h1
      exact List.mem_cons_self _ _

theorem crawl_page_inv (web : Web) (url : String) (s : CrawlState)
    (h : FetchOnceInv s) : FetchOnceInv (crawl_page web url s).2 := by
  by_cases hv : url ∈ s.visited
  · simpa [crawl_page, hv] using h
  · have hext := fetchOnceInv_extend s.visited s.product_urls s.fetchLog url h hv
    cases hw : web url with
    | none =>
      simp [crawl_page, fetch_pageSim, hv, hw]
      exact hext _
    | some hrefs =>
      by_cases hc : classify_urlT url = URLType.PRODUCT
      · simp [crawl_page, fetch_pageSim, hv, hw, hc]
        exact hext _
      · simp [crawl_page, fetch_pageSim, hv, hw, hc]
        exact hext _

theorem crawl_categoryLoop_inv (web : Web) (bc : String) (mp : Option Nat) :
    ∀ (fuel page : Nat) (queue : List String) (s : CrawlState),
    FetchOnceInv s → FetchOnceInv (crawl_categoryLoop web bc mp fuel page queue s) := by
  intro fuel
  induction fuel with
  | zero => intro page queue s h; exact h
  | succ f ih =>
    intro page queue s h
    cases queue with
    | nil => exact h
    | cons current rest =>
      simp only [crawl_categoryLoop]
      split
      · exact ih _ _ _ (crawl_page_inv web current s h)
      · exact h

/-- C2 (amended): within category traversals every fetch goes through
`crawl_page`, whose visited-set check-and-insert precedes the fetch with no
suspension point in between; starting from any state satisfying the
visited-set invariant, `crawl_category` preserves it, so no URL is ever
passed to `fetch_page` twice. (`crawl_all_categories` breaks the unrestricted
claim by fetching the home page outside this discipline — see the
counterexample.) -/
theorem c2_category_fetch_once (web : Web) (categoryUrl : String)
    (maxPages : Option Nat) (fuel : Nat) (s : CrawlState)
    (h : FetchOnceInv s) :
    FetchOnceInv (crawl_category web categoryUrl maxPages fuel s).2 := by
  unfold crawl_category
  cases hinfo : extract_category_infoE categoryUrl with
  | error e => exact h
  | ok v =>
    cases v with
    | none => exact h
    | some ci => exact crawl_categoryLoop_inv web _ maxPages fuel 1 _ s h

theorem c2_category_fetch_once_witness :
    FetchOnceInv (crawl_category (fun _ => some [])
      "https://www.ouedkniss.com/informatique/1" none 5 ⟨[], [], []⟩).2 :=
  c2_category_fetch_once _ _ _ _ _ ⟨List.nodup_nil, by simp⟩

/-- C2 (counterexample): the claim that `fetch_page` is invoked at most once
per URL across a whole crawl session is false — `crawl_all_categories`
fetches the home page without recording it in the visited set, so when the
home URL is rediscovered as a link inside a category traversal it is fetched
a second time: its fetch count in this session is 2. -/
theorem c2_counterexample_home_refetch :
    ((crawl_all_categories webC2 10 ⟨[], [], []⟩).2.fetchLog.count
      "https://www.ouedkniss.com") = 2 := by
  decide

/-! ## Claim C3 -/

theorem crawl_categoryLoop_nil (web : Web) (bc : String) (mp : Option Nat)
    (fuel page : Nat) (s : CrawlState) :
    crawl_categoryLoop web bc mp fuel page [] s = s := by
  cases fuel <;> rfl

/-- C3 (counterexample): the claim that a category crawl whose first page
yields zero products never issues a request for page 2 is false — the run
below finds zero products anywhere, yet page 2 is fetched, because page 1
carries an ordinary link to page 2 which is enqueued like any crawlable
link, independently of the pagination-continuation rule. -/
theorem c3_counterexample_page2_via_link :
    (crawl_category webC3 "https://www.ouedkniss.com/informatique/1"
      none 10 ⟨[], [], []⟩).2.product_urls = [] ∧
    "https://www.ouedkniss.com/informatique/2" ∈
      (crawl_category webC3 "https://www.ouedkniss.com/informatique/1"
        none 10 ⟨[], [], []⟩).2.fetchLog := by
  decide

/-- C3 (amended): the continuation rule consults the session-global product
set, not a per-category count — products discovered on page 1 are only
registered when the product links themselves are crawled, after the page-2
decision. In a session whose global product set is empty, a `crawl_category`
run whose first page yields no crawlable outbound links fetches exactly
page 1 and never requests page 2; page 2 can still be requested when page 1
links to it (see the counterexample). -/
theorem c3_no_page2_without_products (web : Web) (s : CrawlState) (fuel : Nat)
    (hprod : s.product_urls = [])
    (hvis : "https://www.ouedkniss.com/informatique/1" ∉ s.visited)
    (hlinks : ∀ hs, web "https://www.ouedkniss.com/informatique/1" = some hs →
      extract_links hs "https://www.ouedkniss.com/informatique/1" = [])
    (hfuel : 1 ≤ fuel) :
    (crawl_category web "https://www.ouedkniss.com/informatique/1"
      none fuel s).2.fetchLog
      = s.fetchLog ++ ["https://www.ouedkniss.com/informatique/1"] := by
  obtain ⟨f, rfl⟩ : ∃ f, fuel = f + 1 := ⟨fuel - 1, by omega⟩
  have hinfo : extract_category_infoE "https://www.ouedkniss.com/informatique/1"
      = Except.ok (some (["informatique"], 1)) := by decide
  have hbc : String.intercalate "/" ["informatique"] = "informatique" := rfl
  have hnp : nextPageUrl "informatique" 1 = "https://www.ouedkniss.com/informatique/1" := by
    decide
  simp only [crawl_category, hinfo, hbc, hnp]
  simp only [crawl_categoryLoop]
  have hpage : crawl_page web "https://www.ouedkniss.com/informatique/1" s
      = ([], ⟨"https://www.ouedkniss.com/informatique/1" :: s.visited, s.product_urls,
              s.fetchLog ++ ["https://www.ouedkniss.com/informatique/1"]⟩) := by
    cases hw : web "https://www.ouedkniss.com/informatique/1" with
    | none => simp [crawl_page, fetch_pageSim, hvis, hw]
    | some hs =>
      have hcl : ¬(classify_urlT "https://www.ouedkniss.com/informatique/1"
          = URLType.PRODUCT) := by decide
      simp [crawl_page, fetch_pageSim, hvis, hw, hcl, hlinks hs hw]
  simp [hpage, hprod, crawl_categoryLoop_nil]

theorem c3_no_page2_without_products_witness :
    (crawl_category (fun _ => none) "https://www.ouedkniss.com/informatique/1"
      none 3 ⟨[], [], []⟩).2.fetchLog
      = [] ++ ["https://www.ouedkniss.com/informatique/1"] :=
  c3_no_page2_without_products (fun _ => none) ⟨[], [], []⟩ 3 rfl
    (by simp) (fun hs h => Option.noConfusion h) (by omega)

/-! ## Claim C4 -/

/-- C4 (counterexample): the claim that a home-page fetch failure is reported
to the caller as a distinguishable failure result is false — when the home
fetch fails, `crawl_all_categories` returns a plain empty product set, the
very same caller-visible value a successful crawl of a home page with no
category links returns. -/
theorem c4_counterexample_silent_empty :
    (crawl_all_categories webHomeDown 5 ⟨[], [], []⟩).1 = [] ∧
    (crawl_all_categories webHomeEmpty 5 ⟨[], [], []⟩).1 = [] ∧
    (crawl_all_categories webHomeDown 5 ⟨[], [], []⟩).1
      = (crawl_all_categories webHomeEmpty 5 ⟨[], [], []⟩).1 := by
  decide

/-- C4 (amended): if fetching the home page fails, `crawl_all_categories`
does terminate the whole operation immediately — no further URL is fetched
and the visited/product sets are untouched — but it reports the failure only
to the log, returning an empty product set indistinguishable from an empty
successful run. -/
theorem c4_home_failure_aborts (web : Web) (fuel : Nat) (s : CrawlState)
    (h : web ScraperConfig.BASE_URL = none) :
    crawl_all_categories web fuel s
      = ([], ⟨s.visited, s.product_urls, s.fetchLog ++ [ScraperConfig.BASE_URL]⟩) := by
  simp [crawl_all_categories, fetch_pageSim, h]

theorem c4_home_failure_aborts_witness :
    crawl_all_categories (fun _ => none) 7 ⟨[], [], []⟩
      = ([], ⟨[], [], [] ++ [ScraperConfig.BASE_URL]⟩) :=
  c4_home_failure_aborts (fun _ => none) 7 ⟨[], [], []⟩ rfl

/-! ## Claim C8 -/

theorem splitAtChar_snd_subset (sep : Char) (cs : List Char) :
    ∀ a b, splitAtChar sep cs = some (a, b) → ∀ x ∈ b, x ∈ cs := by
  induction cs with
  | nil => intro a b h; simp [splitAtChar] at h
  | cons c t ih =>
    intro a b h x hx
    rw [splitAtChar] at h
    split at h
    · injection h with h1
      injection h1 with h2 h3
      subst h3
      exact List.mem_cons_of_mem _ hx
    · cases hsp : splitAtChar sep t with
      | none => rw [hsp] at h; simp at h
      | some ab =>
        rw [hsp] at h
        have h2 : (some (c :: ab.1, ab.2) : Option (List Char × List Char))
            = some (a, b) := h
        injection h2 with h3
        injection h3 with h4 h5
        subst h5
        exact List.mem_cons_of_mem _ (ih ab.1 ab.2 (by rw [hsp]) x hx)

theorem splitScheme_cases (cs : List Char) :
    splitScheme cs = ([], cs) ∨
    (∃ a b, splitAtChar ':' cs = some (a, b) ∧ schemeOk a = true ∧
      splitScheme cs = (a.map Char.toLower, b)) := by
  unfold splitScheme
  cases hsp : splitAtChar ':' cs with
  | none => left; rfl
  | some ab =>
    by_cases hok : schemeOk ab.1 = true
    · right; exact ⟨ab.1, ab.2, rfl, hok, by simp [hok]⟩
    · left; simp [hok]

theorem splitScheme_snd_subset (cs : List Char) :
    ∀ x ∈ (splitScheme cs).2, x ∈ cs := by
  intro x hx
  rcases splitScheme_cases cs with h | ⟨a, b, hsp, hok, h⟩
  · rw [h] at hx; exact hx
  · rw [h] at hx
    exact splitAtChar_snd_subset ':' cs a b hsp x hx

/-- C8 (counterexample): the claim that `classify_url` never throws is
false — on a URL whose authority contains an unbalanced square bracket,
the `urlparse` call inside `is_valid_domain` raises
`ValueError("Invalid IPv6 URL")`, which propagates out of `classify_url`. -/
theorem c8_counterexample_bracket_error :
    classify_urlE "https://[" = Except.error () ∧
    is_valid_domainE "https://[" = Except.error () := by
  decide

/-- C8 (amended): on every all-ASCII input containing no square bracket —
including arbitrarily malformed ones — `classify_url` never throws: it
returns some classification (malformed input falls through to Invalid).
Outside this domain `urlparse` can raise: an unbalanced square bracket in
the authority raises `ValueError("Invalid IPv6 URL")` (the counterexample),
and a non-ASCII authority whose NFKC normalization introduces a URL
delimiter also raises `ValueError` (bpo-36742), e.g. on `"https://a℀b"`. -/
theorem c8_no_throw_without_brackets (url : String)
    (h1 : '[' ∉ url.toList) (h2 : ']' ∉ url.toList)
    (_hascii : ∀ c ∈ url.toList, c.toNat < 128) :
    ∃ t, classify_urlE url = Except.ok t := by
  have hrest : ∀ x ∈ (splitScheme url.toList).2, x ∈ url.toList :=
    splitScheme_snd_subset _
  simp only [classify_urlE, urlparseE]
  by_cases hsl : ((splitScheme url.toList).2).take 2 = ['/', '/']
  · rw [if_pos hsl]
    have hmem : ∀ x ∈ (((splitScheme url.toList).2).drop 2).takeWhile isNetlocChar,
        x ∈ url.toList := by
      intro x hx
      exact hrest x ((List.drop_sublist 2 _).subset ((List.takeWhile_sublist _).subset hx))
    have hc1 : ((((splitScheme url.toList).2).drop 2).takeWhile isNetlocChar).contains '['
        = false := by
      cases hb : ((((splitScheme url.toList).2).drop 2).takeWhile isNetlocChar).contains '['
      · rfl
      · exact absurd (hmem '[' (List.elem_iff.mp hb)) h1
    have hc2 : ((((splitScheme url.toList).2).drop 2).takeWhile isNetlocChar).contains ']'
        = false := by
      cases hb : ((((splitScheme url.toList).2).drop 2).takeWhile isNetlocChar).contains ']'
      · rfl
      · exact absurd (hmem ']' (List.elem_iff.mp hb)) h2
    rw [hc1, hc2]
    rw [if_neg (by decide)]
    exact ⟨_, rfl⟩
  · rw [if_neg hsl]
    exact ⟨_, rfl⟩

theorem c8_no_throw_without_brackets_witness :
    ∃ t, classify_urlE "ht!tp:;;//weird path##?::" = Except.ok t :=
  c8_no_throw_without_brackets _ (by decide) (by decide) (by decide)

/-! ## Claim C9 -/

